import Mathlib

/-!
Verification of `packages/react/src/createReactQueryHooks.ts`.

The TypeScript source is shallowly embedded: JavaScript values become the
inductive `JsVal` (objects are encoded as a flat cons-chain so that structural
= deep equality is decidable), cache keys become `List JsVal`, the
`useSubscription` effect lifecycle becomes a trace semantics over explicit
events, and the `useLiveQuery` cursor loop becomes a step function on an
explicit state record.  External collaborators (the react-query cache store,
the transformer) are modelled from their documented contracts where needed.
-/

/-- A JavaScript value. Objects and arrays are encoded as cons-chains
(`objCons k v tl`, `arrCons hd tl`) so that derived decidable equality is
deep/structural equality, which is the equality react-query's key hashing
uses. -/
inductive JsVal where
  | null : JsVal
  | undefined : JsVal
  | bool (b : Bool) : JsVal
  | num (n : Int) : JsVal
  | str (s : String) : JsVal
  | arrNil : JsVal
  | arrCons (hd tl : JsVal) : JsVal
  | objNil : JsVal
  | objCons (k : String) (v tl : JsVal) : JsVal
deriving DecidableEq, Repr

/-- JavaScript `x ?? null`: nullish coalescing of a value against `null`. -/
def coalesceNull (v : JsVal) : JsVal :=
  match v with
  | JsVal.null => JsVal.null
  | JsVal.undefined => JsVal.null
  | x => x

/-- `const CACHE_KEY_QUERY = 'TRPC_QUERY'`. -/
def CACHE_KEY_QUERY : String := "TRPC_QUERY"

/-- `const CACHE_KEY_INFINITE_QUERY = 'TRPC_INFINITE_QUERY'`. -/
def CACHE_KEY_INFINITE_QUERY : String := "TRPC_INFINITE_QUERY"

/-- `const CACHE_KEY_LIVE_QUERY = 'TRPC_LIVE_QUERY'`. -/
def CACHE_KEY_LIVE_QUERY : String := "TRPC_LIVE_QUERY"

/-- The three category tags used by the hooks. -/
def trpcCategories : List String :=
  [CACHE_KEY_QUERY, CACHE_KEY_INFINITE_QUERY, CACHE_KEY_LIVE_QUERY]

/-- `getCacheKey([path, input], extras?)` from the source: destructure the
tuple (a missing component destructures to `undefined`), build
`[path, input ?? null]`, and push `extras` when it is truthy (a non-empty
string). -/
def getCacheKey (pathAndInput : List JsVal) (extras : Option String) : List JsVal :=
  let path := (pathAndInput[0]?).getD JsVal.undefined
  let input := (pathAndInput[1]?).getD JsVal.undefined
  let cacheKey := [path, coalesceNull input]
  match extras with
  | none => cacheKey
  | some e => if e = "" then cacheKey else cacheKey ++ [JsVal.str e]

/-- Cache key derived by `_useQuery` (source line 84). -/
def useQueryKey (pathAndArgs : List JsVal) : List JsVal :=
  getCacheKey pathAndArgs (some CACHE_KEY_QUERY)

/-- Cache key derived by `_useInfiniteQuery` (source line 277). -/
def useInfiniteQueryKey (pathAndArgs : List JsVal) : List JsVal :=
  getCacheKey pathAndArgs (some CACHE_KEY_INFINITE_QUERY)

/-- Cache key built inline by `ssr`'s `prefetchQuery` (source lines 220-221):
`const [path, input] = pathAndArgs; [path, input ?? null, CACHE_KEY_QUERY]`. -/
def ssrPrefetchQueryKey (pathAndArgs : List JsVal) : List JsVal :=
  let path := (pathAndArgs[0]?).getD JsVal.undefined
  let input := (pathAndArgs[1]?).getD JsVal.undefined
  [path, coalesceNull input, JsVal.str CACHE_KEY_QUERY]

/-- Cache key derived by `ssr`'s `prefetchInfiniteQuery` (source line 236). -/
def ssrPrefetchInfiniteQueryKey (pathAndArgs : List JsVal) : List JsVal :=
  getCacheKey pathAndArgs (some CACHE_KEY_INFINITE_QUERY)

theorem getCacheKey_some_ne_empty (pa : List JsVal) (e : String) (he : e ≠ "") :
    getCacheKey pa (some e) =
      [(pa[0]?).getD JsVal.undefined, coalesceNull ((pa[1]?).getD JsVal.undefined),
        JsVal.str e] := by
  simp [getCacheKey, he]

/-- Claim C5: calls to `getCacheKey` with equal path, (deep-)equal input and
equal category produce structurally equal keys, and calls whose categories
differ (among the three category tags) produce different keys even for
identical path and input. -/
theorem C5_cacheKey_determined_and_category_separates
    (p1 p2 i1 i2 : JsVal) (c1 c2 : String)
    (hp : p1 = p2) (hi : i1 = i2)
    (hc1 : c1 ∈ trpcCategories) (hc2 : c2 ∈ trpcCategories) :
    (getCacheKey [p1, i1] (some c1) = getCacheKey [p2, i2] (some c1)) ∧
      (c1 ≠ c2 → getCacheKey [p1, i1] (some c1) ≠ getCacheKey [p2, i2] (some c2)) := by
  subst hp; subst hi
  refine ⟨rfl, fun hne heq => hne ?_⟩
  have h1 : c1 ≠ "" := by
    simp only [trpcCategories, List.mem_cons, List.not_mem_nil, or_false] at hc1
    rcases hc1 with h | h | h <;> subst h <;> decide
  have h2 : c2 ≠ "" := by
    simp only [trpcCategories, List.mem_cons, List.not_mem_nil, or_false] at hc2
    rcases hc2 with h | h | h <;> subst h <;> decide
  rw [getCacheKey_some_ne_empty _ _ h1, getCacheKey_some_ne_empty _ _ h2] at heq
  simpa using heq

/-- Witness for C5 at concrete inputs. -/
theorem C5_cacheKey_determined_and_category_separates_witness :
    getCacheKey [JsVal.str "user.get", JsVal.null] (some CACHE_KEY_QUERY) ≠
      getCacheKey [JsVal.str "user.get", JsVal.null] (some CACHE_KEY_LIVE_QUERY) :=
  (C5_cacheKey_determined_and_category_separates
      (JsVal.str "user.get") (JsVal.str "user.get") JsVal.null JsVal.null
      CACHE_KEY_QUERY CACHE_KEY_LIVE_QUERY rfl rfl (by decide) (by decide)).2
    (by decide)

/-- Claim C6: for every path and category, deriving a key with the input
omitted and with the input explicitly `undefined` yields the same key, whose
input position holds the `null` sentinel. -/
theorem C6_cacheKey_normalizes_missing_input (p : JsVal) (extras : Option String) :
    getCacheKey [p] extras = getCacheKey [p, JsVal.undefined] extras ∧
      (getCacheKey [p, JsVal.undefined] extras)[1]? = some JsVal.null := by
  constructor
  · rfl
  · cases extras with
    | none => rfl
    | some e =>
      by_cases he : e = "" <;> simp [getCacheKey, he, coalesceNull]

/-- Claim C7: the cache key under which `ssr.prefetchQuery` stores its result
equals the key the client-side `useQuery` derives for the same path and input,
and the key `ssr.prefetchInfiniteQuery` uses equals the key of the client-side
`useInfiniteQuery`. -/
theorem C7_ssr_keys_match_client_keys (pathAndArgs : List JsVal) :
    ssrPrefetchQueryKey pathAndArgs = useQueryKey pathAndArgs ∧
      ssrPrefetchInfiniteQueryKey pathAndArgs = useInfiniteQueryKey pathAndArgs := by
  refine ⟨?_, rfl⟩
  rw [useQueryKey, getCacheKey_some_ne_empty _ _ (by decide : CACHE_KEY_QUERY ≠ "")]
  rfl

/-- First occurrence lookup of a key in an object cons-chain. -/
def objGetKey : JsVal → String → Option JsVal
  | JsVal.objCons k v tl, key => if k = key then some v else objGetKey tl key
  | _, _ => none

/-- Whether an object cons-chain has a key. -/
def objHasKey : JsVal → String → Bool
  | JsVal.objCons k _ tl, key => k = key || objHasKey tl key
  | _, _ => false

/-- Overwrite every occurrence of a key in place (a well-formed object has at
most one, and a JS spread override keeps the key at its original position). -/
def objSetKey : JsVal → String → JsVal → JsVal
  | JsVal.objCons k v tl, key, c =>
    if k = key then JsVal.objCons k c (objSetKey tl key c)
    else JsVal.objCons k v (objSetKey tl key c)
  | v, _, _ => v

/-- Append a fresh key at the end of an object cons-chain. -/
def objAppendKey : JsVal → String → JsVal → JsVal
  | JsVal.objCons k v tl, key, c => JsVal.objCons k v (objAppendKey tl key c)
  | _, key, c => JsVal.objCons key c JsVal.objNil

/-- The JS spread `{...userInput, cursor: c}` from the `useLiveQuery` fetch
function: override `cursor` when present, otherwise append it. -/
def mergeCursor (userInput : JsVal) (c : JsVal) : JsVal :=
  if objHasKey userInput "cursor" then objSetKey userInput "cursor" c
  else objAppendKey userInput "cursor" c

theorem objGetKey_objSetKey_of_has (ui : JsVal) (key : String) (c : JsVal)
    (h : objHasKey ui key = true) : objGetKey (objSetKey ui key c) key = some c := by
  induction ui with
  | objCons k v tl ihv ihtl =>
    by_cases hk : k = key
    · simp [objSetKey, objGetKey, hk]
    · simp only [objHasKey, hk, decide_eq_true_eq, Bool.or_eq_true, false_or] at h
      simp [objSetKey, objGetKey, hk, ihtl h]
  | _ => simp [objHasKey] at h

theorem objGetKey_objAppendKey (ui : JsVal) (key : String) (c : JsVal)
    (h : objHasKey ui key = false) : objGetKey (objAppendKey ui key c) key = some c := by
  induction ui with
  | objCons k v tl ihv ihtl =>
    simp only [objHasKey, Bool.or_eq_false_iff, decide_eq_false_iff_not] at h
    simp [objAppendKey, objGetKey, h.1, ihtl h.2]
  | _ => simp [objAppendKey, objGetKey]

/-- The request object built for cursor `c` always carries `c` in its
`cursor` field. -/
theorem objGetKey_mergeCursor (ui : JsVal) (c : JsVal) :
    objGetKey (mergeCursor ui c) "cursor" = some c := by
  unfold mergeCursor
  by_cases h : objHasKey ui "cursor"
  · simp [h, objGetKey_objSetKey_of_has _ _ _ h]
  · simp only [Bool.not_eq_true] at h
    simp [h, objGetKey_objAppendKey _ _ _ h]

/-- State of one activation of the `useSubscription` effect: the captured
`stopped` flag, whether `promise.cancel()` has run, and the arguments of
every `onBatch` and `onError` call delivered so far. -/
structure SubState where
  stopped : Bool
  cancelled : Bool
  onBatchCalls : List JsVal
  onErrorCalls : List JsVal
deriving DecidableEq, Repr

/-- Events that can reach one activation of the effect: the long-poll promise
resolving with a batch, rejecting with an error, or the effect cleanup
running (unmount, key change, `enabled` flipping). -/
inductive SubEvent where
  | resolve (data : JsVal) : SubEvent
  | reject (err : JsVal) : SubEvent
  | cleanup : SubEvent
deriving DecidableEq, Repr

/-- Whether an event is the promise settling. -/
def SubEvent.isSettle : SubEvent → Bool
  | SubEvent.resolve _ => true
  | SubEvent.reject _ => true
  | SubEvent.cleanup => false

/-- State right after the effect body ran: `stopped = false`, nothing
delivered, the long-poll request issued. -/
def subInit : SubState :=
  { stopped := false, cancelled := false, onBatchCalls := [], onErrorCalls := [] }

/-- One event hitting the handlers installed by the effect body
(source lines 126-145): the success handler appends to `onBatch` unless
`stopped`, the failure handler appends to `onError` unless `stopped`, and the
cleanup sets `stopped` and cancels the promise. -/
def subStep (s : SubState) (e : SubEvent) : SubState :=
  match e with
  | SubEvent.resolve d =>
    if s.stopped then s else { s with onBatchCalls := s.onBatchCalls ++ [d] }
  | SubEvent.reject err =>
    if s.stopped then s else { s with onErrorCalls := s.onErrorCalls ++ [err] }
  | SubEvent.cleanup => { s with stopped := true, cancelled := true }

/-- Run an activation through a whole event trace. -/
def subRun (evs : List SubEvent) : SubState :=
  evs.foldl subStep subInit

theorem subStep_stopped_frame (s : SubState) (e : SubEvent) (h : s.stopped = true) :
    (subStep s e).stopped = true ∧
      (subStep s e).onBatchCalls = s.onBatchCalls ∧
      (subStep s e).onErrorCalls = s.onErrorCalls := by
  cases e <;> simp [subStep, h]

theorem subFoldl_stopped_frame (post : List SubEvent) (s : SubState)
    (h : s.stopped = true) :
    (post.foldl subStep s).stopped = true ∧
      (post.foldl subStep s).onBatchCalls = s.onBatchCalls ∧
      (post.foldl subStep s).onErrorCalls = s.onErrorCalls := by
  induction post generalizing s with
  | nil => exact ⟨h, rfl, rfl⟩
  | cons e rest ih =>
    obtain ⟨h1, h2, h3⟩ := subStep_stopped_frame s e h
    obtain ⟨g1, g2, g3⟩ := ih (subStep s e) h1
    exact ⟨g1, by rw [List.foldl_cons, g2, h2], by rw [List.foldl_cons, g3, h3]⟩

theorem subFoldl_no_settle (pre : List SubEvent) (s : SubState)
    (h : ∀ e ∈ pre, e.isSettle = false) :
    (pre.foldl subStep s).onBatchCalls = s.onBatchCalls ∧
      (pre.foldl subStep s).onErrorCalls = s.onErrorCalls := by
  induction pre generalizing s with
  | nil => exact ⟨rfl, rfl⟩
  | cons e rest ih =>
    have he : e = SubEvent.cleanup := by
      cases e with
      | cleanup => rfl
      | resolve d => simpa [SubEvent.isSettle] using h (SubEvent.resolve d) (by simp)
      | reject err => simpa [SubEvent.isSettle] using h (SubEvent.reject err) (by simp)
    subst he
    obtain ⟨g1, g2⟩ := ih (subStep s SubEvent.cleanup) (fun e he => h e (by simp [he]))
    simp only [List.foldl_cons]
    exact ⟨by rw [g1]; rfl, by rw [g2]; rfl⟩

/-- Claim C1: for a started subscription, if the effect cleanup runs before
the long-poll promise settles, then no matter how the promise later resolves
or rejects, `onBatch` and `onError` are never invoked: the cleanup sets the
`stopped` flag and cancels the promise, and both handlers return early when
`stopped` is true. -/
theorem C1_no_callbacks_after_cleanup (pre post : List SubEvent)
    (hpre : ∀ e ∈ pre, e.isSettle = false) :
    (subRun (pre ++ SubEvent.cleanup :: post)).onBatchCalls = [] ∧
      (subRun (pre ++ SubEvent.cleanup :: post)).onErrorCalls = [] ∧
      (subRun (pre ++ SubEvent.cleanup :: post)).stopped = true ∧
      (subRun (pre ++ SubEvent.cleanup :: post)).cancelled = true := by
  unfold subRun
  rw [List.foldl_append, List.foldl_cons]
  obtain ⟨hb, he⟩ := subFoldl_no_settle pre subInit hpre
  set mid := pre.foldl subStep subInit with hmid
  have hstop : (subStep mid SubEvent.cleanup).stopped = true := by simp [subStep]
  obtain ⟨g1, g2, g3⟩ := subFoldl_stopped_frame post (subStep mid SubEvent.cleanup) hstop
  have hcancel : (subStep mid SubEvent.cleanup).cancelled = true := by simp [subStep]
  refine ⟨?_, ?_, g1, ?_⟩
  · rw [g2]; simpa [subStep, subInit] using hb
  · rw [g3]; simpa [subStep, subInit] using he
  · have : ∀ (q : List SubEvent) (s : SubState), s.cancelled = true →
        (q.foldl subStep s).cancelled = true := by
      intro q
      induction q with
      | nil => intro s hs; exact hs
      | cons e rest ih =>
        intro s hs
        rw [List.foldl_cons]
        refine ih _ ?_
        cases e <;> simp [subStep, hs, apply_ite SubState.cancelled]
    exact this post _ hcancel

/-- Witness for C1: a cleanup followed by a late resolve and a late reject
delivers nothing. -/
theorem C1_no_callbacks_after_cleanup_witness :
    (subRun ([] ++ SubEvent.cleanup ::
        [SubEvent.resolve (JsVal.str "batch"), SubEvent.reject (JsVal.str "err")])).onBatchCalls
        = [] ∧
      (subRun ([] ++ SubEvent.cleanup ::
        [SubEvent.resolve (JsVal.str "batch"), SubEvent.reject (JsVal.str "err")])).onErrorCalls
        = [] ∧
      (subRun ([] ++ SubEvent.cleanup ::
        [SubEvent.resolve (JsVal.str "batch"), SubEvent.reject (JsVal.str "err")])).stopped
        = true ∧
      (subRun ([] ++ SubEvent.cleanup ::
        [SubEvent.resolve (JsVal.str "batch"), SubEvent.reject (JsVal.str "err")])).cancelled
        = true :=
  C1_no_callbacks_after_cleanup []
    [SubEvent.resolve (JsVal.str "batch"), SubEvent.reject (JsVal.str "err")]
    (by decide)

/-- One element of a live-query batch: `OutputWithCursor` from the source,
a `cursor` (opaque, nullable) plus a `data` payload. -/
structure LiveItem where
  cursor : JsVal
  data : JsVal
deriving DecidableEq, Repr

/-- `lastItem?.cursor` for a raw batch: the cursor of `raw[raw.length - 1]`,
`undefined` when the batch is empty. -/
def lastCursorOf (b : List LiveItem) : JsVal :=
  match b.getLast? with
  | some it => it.cursor
  | none => JsVal.undefined

/-- State of one `useLiveQuery` run between server responses.
`currentCursor` is the `useRef` cell, `cache` is `hook.data` (the most
recently resolved batch, `none` before the first response), `inFlight` the
requests currently outstanding at the external cache (their merged input
objects), `fetchLog` every request ever issued in order, and
`prevLastCursor` the `lastCursor` of the last committed render, against
which the `useEffect` dependency array compares. -/
structure LQState where
  currentCursor : JsVal
  cache : Option (List LiveItem)
  inFlight : List JsVal
  fetchCount : Nat
  fetchLog : List JsVal
  prevLastCursor : JsVal
deriving DecidableEq, Repr

/-- `hook.refetch()` (and the initial fetch): the external cache deduplicates
concurrent fetches for an identical key, so a new request — carrying
`{...userInput, cursor: currentCursor.current}` — is issued only when none is
in flight. -/
def issueFetch (userInput : JsVal) (s : LQState) : LQState :=
  if s.inFlight.isEmpty then
    let req := mergeCursor userInput s.currentCursor
    { s with inFlight := [req], fetchCount := s.fetchCount + 1,
             fetchLog := s.fetchLog ++ [req] }
  else s

/-- Mount of `useLiveQuery`: the ref starts at `null`, `useQuery` issues the
initial fetch (reading the ref while it is still `null`), the first render
sees no data (`lastCursor = undefined`), and the first effect run
unconditionally stores `lastCursor` into the ref and calls `refetch()`,
which deduplicates against the in-flight initial request. -/
def lqInit (userInput : JsVal) : LQState :=
  let s0 : LQState :=
    { currentCursor := JsVal.null, cache := none, inFlight := [],
      fetchCount := 0, fetchLog := [], prevLastCursor := JsVal.undefined }
  let s1 := issueFetch userInput s0
  issueFetch userInput { s1 with currentCursor := JsVal.undefined }

/-- A server response `b` arriving for the in-flight request: `hook.data`
becomes `b`, the component re-renders, and the effect — whose dependency is
`lastCursor` — runs exactly when the new `lastCursor` differs from the
previously rendered one, in which case it stores the cursor into the ref and
refetches. When no request is in flight no response can arrive. -/
def lqResolve (userInput : JsVal) (s : LQState) (b : List LiveItem) : LQState :=
  if s.inFlight.isEmpty then s
  else
    let lc := lastCursorOf b
    let s1 : LQState := { s with cache := some b, inFlight := [] }
    if lc = s.prevLastCursor then s1
    else issueFetch userInput { s1 with currentCursor := lc, prevLastCursor := lc }

/-- A whole run: mount, then the given server responses in order. -/
def lqRun (userInput : JsVal) (bs : List (List LiveItem)) : LQState :=
  bs.foldl (lqResolve userInput) (lqInit userInput)

/-- `lastItem`: the last element of `hook.data`, `undefined` when there is no
data or the batch is empty (source lines 179-186). -/
def lqLastItem (s : LQState) : Option LiveItem :=
  s.cache.bind List.getLast?

/-- The `data` value the hook exposes: `lastItem?.data` (source line 188). -/
def lqData (s : LQState) : Option JsVal :=
  (lqLastItem s).map LiveItem.data

theorem lqInit_eq (ui : JsVal) :
    lqInit ui =
      { currentCursor := JsVal.undefined, cache := none,
        inFlight := [mergeCursor ui JsVal.null], fetchCount := 1,
        fetchLog := [mergeCursor ui JsVal.null],
        prevLastCursor := JsVal.undefined } := rfl

theorem lqResolve_no_flight (ui : JsVal) (s : LQState) (b : List LiveItem)
    (h : s.inFlight = []) : lqResolve ui s b = s := by
  simp [lqResolve, h]

theorem lqResolve_same_cursor (ui : JsVal) (s : LQState) (b : List LiveItem)
    (hfl : s.inFlight ≠ []) (heq : lastCursorOf b = s.prevLastCursor) :
    lqResolve ui s b = { s with cache := some b, inFlight := [] } := by
  simp [lqResolve, List.isEmpty_iff, hfl, heq]

theorem lqResolve_new_cursor (ui : JsVal) (s : LQState) (b : List LiveItem)
    (hfl : s.inFlight ≠ []) (hne : lastCursorOf b ≠ s.prevLastCursor) :
    lqResolve ui s b =
      { currentCursor := lastCursorOf b, cache := some b,
        inFlight := [mergeCursor ui (lastCursorOf b)],
        fetchCount := s.fetchCount + 1,
        fetchLog := s.fetchLog ++ [mergeCursor ui (lastCursorOf b)],
        prevLastCursor := lastCursorOf b } := by
  simp [lqResolve, issueFetch, List.isEmpty_iff, hfl, hne]

/-- Machine invariant: the ref agrees with the last rendered cursor, and at
most one request is in flight. -/
def LQInv (s : LQState) : Prop :=
  s.currentCursor = s.prevLastCursor ∧ s.inFlight.length ≤ 1

theorem lqInv_init (ui : JsVal) : LQInv (lqInit ui) := by
  rw [LQInv, lqInit_eq]
  exact ⟨rfl, by simp⟩

theorem lqInv_step (ui : JsVal) (s : LQState) (b : List LiveItem) (h : LQInv s) :
    LQInv (lqResolve ui s b) := by
  by_cases hfl : s.inFlight = []
  · rw [lqResolve_no_flight ui s b hfl]
    exact h
  · by_cases hc : lastCursorOf b = s.prevLastCursor
    · rw [lqResolve_same_cursor ui s b hfl hc]
      exact ⟨h.1, by simp⟩
    · rw [lqResolve_new_cursor ui s b hfl hc]
      exact ⟨rfl, by simp⟩

theorem lqInv_run (ui : JsVal) (bs : List (List LiveItem)) : LQInv (lqRun ui bs) := by
  rw [lqRun]
  have h : ∀ s, LQInv s → LQInv (bs.foldl (lqResolve ui) s) := by
    induction bs with
    | nil => exact fun s hs => hs
    | cons b rest ih =>
      intro s hs
      rw [List.foldl_cons]
      exact ih _ (lqInv_step ui s b hs)
  exact h _ (lqInv_init ui)

/-- Claim C3: in every reachable state of the `useLiveQuery` loop at most one
request is in flight; a batch whose last cursor equals the stored cursor
reference triggers no refetch (the loop stalls); and a new fetch is issued
only while processing a response of a prior in-flight fetch and only when the
arriving cursor differs from the stored one. -/
theorem C3_no_parallel_requests_and_stall_on_equal_cursor
    (ui : JsVal) (bs : List (List LiveItem)) (b : List LiveItem) :
    (lqRun ui bs).inFlight.length ≤ 1 ∧
      (lastCursorOf b = (lqRun ui bs).currentCursor →
        (lqResolve ui (lqRun ui bs) b).fetchCount = (lqRun ui bs).fetchCount ∧
          (lqResolve ui (lqRun ui bs) b).inFlight = []) ∧
      ((lqResolve ui (lqRun ui bs) b).fetchCount ≠ (lqRun ui bs).fetchCount →
        lastCursorOf b ≠ (lqRun ui bs).currentCursor ∧ (lqRun ui bs).inFlight ≠ []) := by
  obtain ⟨hcur, hlen⟩ := lqInv_run ui bs
  refine ⟨hlen, ?_, ?_⟩
  · intro hc
    by_cases hfl : (lqRun ui bs).inFlight = []
    · rw [lqResolve_no_flight ui _ b hfl]
      exact ⟨rfl, hfl⟩
    · rw [lqResolve_same_cursor ui _ b hfl (hc.trans hcur)]
      exact ⟨rfl, rfl⟩
  · intro hne
    by_cases hfl : (lqRun ui bs).inFlight = []
    · rw [lqResolve_no_flight ui _ b hfl] at hne
      exact absurd rfl hne
    · refine ⟨fun hc => hne ?_, hfl⟩
      rw [lqResolve_same_cursor ui _ b hfl (hc.trans hcur)]

/-- Witness for C3: after one batch with cursor 1, a batch whose last cursor
is again 1 triggers no refetch. -/
theorem C3_no_parallel_requests_and_stall_on_equal_cursor_witness :
    (lqResolve JsVal.objNil (lqRun JsVal.objNil [[LiveItem.mk (JsVal.num 1) (JsVal.str "x")]])
        [LiveItem.mk (JsVal.num 1) (JsVal.str "y")]).fetchCount =
      (lqRun JsVal.objNil [[LiveItem.mk (JsVal.num 1) (JsVal.str "x")]]).fetchCount ∧
    (lqResolve JsVal.objNil (lqRun JsVal.objNil [[LiveItem.mk (JsVal.num 1) (JsVal.str "x")]])
        [LiveItem.mk (JsVal.num 1) (JsVal.str "y")]).inFlight = [] :=
  (C3_no_parallel_requests_and_stall_on_equal_cursor JsVal.objNil
      [[LiveItem.mk (JsVal.num 1) (JsVal.str "x")]]
      [LiveItem.mk (JsVal.num 1) (JsVal.str "y")]).2.1 (by decide)

/-- Claim C2: when the server answers the chain of requests with batches
whose last cursors are strictly increasing numbers `n1 < n2 < n3`, the loop
issues exactly one fetch per cursor transition — the initial request carries
`cursor: null`, and then one request per transition carrying the cursor just
stored — and after each transition the exposed `data` equals the `data` of
the last item of the most recent batch. -/
theorem C2_one_fetch_per_cursor_transition (ui : JsVal)
    (b1 b2 b3 : List LiveItem) (n1 n2 n3 : Int)
    (h1 : lastCursorOf b1 = JsVal.num n1) (h2 : lastCursorOf b2 = JsVal.num n2)
    (h3 : lastCursorOf b3 = JsVal.num n3)
    (h12 : n1 < n2) (h23 : n2 < n3) :
    (lqRun ui [b1]).fetchCount = 2 ∧
      lqData (lqRun ui [b1]) = (b1.getLast?).map LiveItem.data ∧
      (lqRun ui [b1, b2]).fetchCount = 3 ∧
      lqData (lqRun ui [b1, b2]) = (b2.getLast?).map LiveItem.data ∧
      (lqRun ui [b1, b2, b3]).fetchCount = 4 ∧
      lqData (lqRun ui [b1, b2, b3]) = (b3.getLast?).map LiveItem.data ∧
      (lqRun ui [b1, b2, b3]).fetchLog =
        [mergeCursor ui JsVal.null, mergeCursor ui (JsVal.num n1),
          mergeCursor ui (JsVal.num n2), mergeCursor ui (JsVal.num n3)] ∧
      (lqRun ui [b1, b2, b3]).fetchLog.map (fun r => objGetKey r "cursor") =
        [some JsVal.null, some (JsVal.num n1), some (JsVal.num n2),
          some (JsVal.num n3)] := by
  have st1 : lqResolve ui (lqInit ui) b1 =
      { currentCursor := JsVal.num n1, cache := some b1,
        inFlight := [mergeCursor ui (JsVal.num n1)], fetchCount := 2,
        fetchLog := [mergeCursor ui JsVal.null, mergeCursor ui (JsVal.num n1)],
        prevLastCursor := JsVal.num n1 } := by
    rw [lqResolve_new_cursor ui (lqInit ui) b1 (by rw [lqInit_eq]; simp)
        (by rw [lqInit_eq, h1]; simp), lqInit_eq, h1]
    rfl
  have st2 : lqResolve ui (lqResolve ui (lqInit ui) b1) b2 =
      { currentCursor := JsVal.num n2, cache := some b2,
        inFlight := [mergeCursor ui (JsVal.num n2)], fetchCount := 3,
        fetchLog := [mergeCursor ui JsVal.null, mergeCursor ui (JsVal.num n1),
          mergeCursor ui (JsVal.num n2)],
        prevLastCursor := JsVal.num n2 } := by
    rw [st1, lqResolve_new_cursor ui _ b2 (by simp)
        (by rw [h2]; simp; exact h12.ne'), h2]
    rfl
  have st3 : lqResolve ui (lqResolve ui (lqResolve ui (lqInit ui) b1) b2) b3 =
      { currentCursor := JsVal.num n3, cache := some b3,
        inFlight := [mergeCursor ui (JsVal.num n3)], fetchCount := 4,
        fetchLog := [mergeCursor ui JsVal.null, mergeCursor ui (JsVal.num n1),
          mergeCursor ui (JsVal.num n2), mergeCursor ui (JsVal.num n3)],
        prevLastCursor := JsVal.num n3 } := by
    rw [st2, lqResolve_new_cursor ui _ b3 (by simp)
        (by rw [h3]; simp; exact h23.ne'), h3]
    rfl
  have hrun1 : lqRun ui [b1] = lqResolve ui (lqInit ui) b1 := rfl
  have hrun2 : lqRun ui [b1, b2] = lqResolve ui (lqResolve ui (lqInit ui) b1) b2 := rfl
  have hrun3 : lqRun ui [b1, b2, b3] =
      lqResolve ui (lqResolve ui (lqResolve ui (lqInit ui) b1) b2) b3 := rfl
  rw [hrun1, hrun2, hrun3, st3, st2, st1]
  refine ⟨rfl, by simp [lqData, lqLastItem], rfl, by simp [lqData, lqLastItem],
    rfl, by simp [lqData, lqLastItem], rfl, ?_⟩
  simp [objGetKey_mergeCursor]

/-- Witness for C2 at concrete batches with cursors 1, 2, 3. -/
theorem C2_one_fetch_per_cursor_transition_witness :
    (lqRun JsVal.objNil [[LiveItem.mk (JsVal.num 1) (JsVal.str "x")]]).fetchCount = 2 ∧
      lqData (lqRun JsVal.objNil [[LiveItem.mk (JsVal.num 1) (JsVal.str "x")]]) =
        ([LiveItem.mk (JsVal.num 1) (JsVal.str "x")].getLast?).map LiveItem.data ∧
      (lqRun JsVal.objNil [[LiveItem.mk (JsVal.num 1) (JsVal.str "x")],
          [LiveItem.mk (JsVal.num 2) (JsVal.str "y")]]).fetchCount = 3 ∧
      lqData (lqRun JsVal.objNil [[LiveItem.mk (JsVal.num 1) (JsVal.str "x")],
          [LiveItem.mk (JsVal.num 2) (JsVal.str "y")]]) =
        ([LiveItem.mk (JsVal.num 2) (JsVal.str "y")].getLast?).map LiveItem.data ∧
      (lqRun JsVal.objNil [[LiveItem.mk (JsVal.num 1) (JsVal.str "x")],
          [LiveItem.mk (JsVal.num 2) (JsVal.str "y")],
          [LiveItem.mk (JsVal.num 3) (JsVal.str "z")]]).fetchCount = 4 ∧
      lqData (lqRun JsVal.objNil [[LiveItem.mk (JsVal.num 1) (JsVal.str "x")],
          [LiveItem.mk (JsVal.num 2) (JsVal.str "y")],
          [LiveItem.mk (JsVal.num 3) (JsVal.str "z")]]) =
        ([LiveItem.mk (JsVal.num 3) (JsVal.str "z")].getLast?).map LiveItem.data ∧
      (lqRun JsVal.objNil [[LiveItem.mk (JsVal.num 1) (JsVal.str "x")],
          [LiveItem.mk (JsVal.num 2) (JsVal.str "y")],
          [LiveItem.mk (JsVal.num 3) (JsVal.str "z")]]).fetchLog =
        [mergeCursor JsVal.objNil JsVal.null, mergeCursor JsVal.objNil (JsVal.num 1),
          mergeCursor JsVal.objNil (JsVal.num 2), mergeCursor JsVal.objNil (JsVal.num 3)] ∧
      (lqRun JsVal.objNil [[LiveItem.mk (JsVal.num 1) (JsVal.str "x")],
          [LiveItem.mk (JsVal.num 2) (JsVal.str "y")],
          [LiveItem.mk (JsVal.num 3) (JsVal.str "z")]]).fetchLog.map
          (fun r => objGetKey r "cursor") =
        [some JsVal.null, some (JsVal.num 1), some (JsVal.num 2), some (JsVal.num 3)] :=
  C2_one_fetch_per_cursor_transition JsVal.objNil
    [LiveItem.mk (JsVal.num 1) (JsVal.str "x")]
    [LiveItem.mk (JsVal.num 2) (JsVal.str "y")]
    [LiveItem.mk (JsVal.num 3) (JsVal.str "z")]
    1 2 3 (by decide) (by decide) (by decide) (by decide) (by decide)

/-- Counterexample to claim C4 as stated: in the run where a nonempty batch
with cursor 1 is followed by an empty batch, the most recent batch is empty
and `lastItem`/`data` are undefined, yet the loop does not stall: processing
the empty batch changes `lastCursor` from 1 to `undefined`, so the effect
runs, resets the stored cursor reference to `undefined`, and triggers one
more automatic refetch (fetch count rises from 2 to 3 and a request is again
in flight). -/
theorem C4_cex_empty_batch_after_nonempty_refetches :
    lqData (lqRun JsVal.objNil [[LiveItem.mk (JsVal.num 1) (JsVal.str "x")], []]) = none ∧
      (lqRun JsVal.objNil [[LiveItem.mk (JsVal.num 1) (JsVal.str "x")], []]).cache =
        some [] ∧
      (lqRun JsVal.objNil [[LiveItem.mk (JsVal.num 1) (JsVal.str "x")]]).fetchCount = 2 ∧
      (lqRun JsVal.objNil [[LiveItem.mk (JsVal.num 1) (JsVal.str "x")]]).currentCursor =
        JsVal.num 1 ∧
      (lqRun JsVal.objNil [[LiveItem.mk (JsVal.num 1) (JsVal.str "x")], []]).fetchCount = 3 ∧
      (lqRun JsVal.objNil [[LiveItem.mk (JsVal.num 1) (JsVal.str "x")], []]).currentCursor =
        JsVal.undefined ∧
      (lqRun JsVal.objNil [[LiveItem.mk (JsVal.num 1) (JsVal.str "x")], []]).inFlight ≠ [] := by
  decide

/-- Claim C4 (amended): in every `useLiveQuery` run in which no batch has
loaded yet, or in which the first loaded batch is empty — so no nonempty
batch has ever advanced the cursor — `lastItem` is undefined, the exposed
`data` is undefined, the stored cursor reference stays at its unset
(`undefined`) post-mount value, and no automatic refetch continues the loop:
it stalls, and any further response-free state is fixed. (When an empty
batch instead follows a nonempty one, the cursor reference is reset to
`undefined` and one more automatic refetch is triggered.) -/
theorem C4_empty_first_batch_stalls (ui : JsVal) :
    lqLastItem (lqInit ui) = none ∧ lqData (lqInit ui) = none ∧
      lqResolve ui (lqInit ui) [] =
        { currentCursor := JsVal.undefined, cache := some [], inFlight := [],
          fetchCount := 1, fetchLog := [mergeCursor ui JsVal.null],
          prevLastCursor := JsVal.undefined } ∧
      lqLastItem (lqResolve ui (lqInit ui) []) = none ∧
      lqData (lqResolve ui (lqInit ui) []) = none ∧
      (lqResolve ui (lqInit ui) []).fetchCount = (lqInit ui).fetchCount ∧
      (lqResolve ui (lqInit ui) []).currentCursor = (lqInit ui).currentCursor ∧
      ∀ b, lqResolve ui (lqResolve ui (lqInit ui) []) b = lqResolve ui (lqInit ui) [] := by
  have st : lqResolve ui (lqInit ui) [] =
      { currentCursor := JsVal.undefined, cache := some [], inFlight := [],
        fetchCount := 1, fetchLog := [mergeCursor ui JsVal.null],
        prevLastCursor := JsVal.undefined } := by
    rw [lqResolve_same_cursor ui (lqInit ui) [] (by rw [lqInit_eq]; simp) (by rw [lqInit_eq]; rfl),
      lqInit_eq]
  refine ⟨rfl, rfl, st, ?_, ?_, ?_, ?_, ?_⟩
  · rw [st]; rfl
  · rw [st]; rfl
  · rw [st]; rfl
  · rw [st]; rfl
  · intro b
    rw [st, lqResolve_no_flight ui _ b rfl]

/-- Modelled from the spec: the external cache store (react-query's
`QueryClient`), which is not part of this repository, maps cache keys to
stored payloads; newest entry wins on lookup. -/
abbrev Cache := List (List JsVal × JsVal)

/-- Lookup of a key in the external cache. -/
def cacheLookup (c : Cache) (k : List JsVal) : Option JsVal :=
  match c with
  | [] => none
  | e :: tl => if e.1 = k then some e.2 else cacheLookup tl k

/-- Modelled from the spec: storing a value under a key in the external
cache; only that key's observable entry changes. -/
def cacheSet (c : Cache) (k : List JsVal) (v : JsVal) : Cache :=
  (k, v) :: c

theorem cacheLookup_cacheSet_self (c : Cache) (k : List JsVal) (v : JsVal) :
    cacheLookup (cacheSet c k v) k = some v := by
  simp [cacheLookup, cacheSet]

theorem cacheLookup_cacheSet_ne (c : Cache) (k k2 : List JsVal) (v : JsVal)
    (h : k2 ≠ k) : cacheLookup (cacheSet c k v) k2 = cacheLookup c k2 := by
  have hne : ¬(k = k2) := fun hh => h hh.symm
  simp [cacheLookup, cacheSet, hne]

/-- `setQueryData` from `useQueryUtils` (source lines 326-337): derive the
bare two-element key, then write the output under
`cacheKey.concat([CACHE_KEY_QUERY])` and
`cacheKey.concat([CACHE_KEY_INFINITE_QUERY])`. -/
def setQueryData (c : Cache) (pathAndArgs : List JsVal) (output : JsVal) : Cache :=
  let cacheKey := getCacheKey pathAndArgs none
  let c1 := cacheSet c (cacheKey ++ [JsVal.str CACHE_KEY_QUERY]) output
  cacheSet c1 (cacheKey ++ [JsVal.str CACHE_KEY_INFINITE_QUERY]) output

/-- Claim C10: `setQueryData` writes the output under exactly the plain-query
key and the infinite-query key for the given path and input — which are the
keys `useQuery` and `useInfiniteQuery` derive — and leaves every other cache
entry unchanged; in particular the live-query key of the same path and input
is never touched. -/
theorem C10_setQueryData_writes_two_keys_only
    (c : Cache) (pathAndArgs : List JsVal) (output : JsVal) :
    cacheLookup (setQueryData c pathAndArgs output)
        (getCacheKey pathAndArgs none ++ [JsVal.str CACHE_KEY_QUERY]) = some output ∧
      getCacheKey pathAndArgs none ++ [JsVal.str CACHE_KEY_QUERY] =
        useQueryKey pathAndArgs ∧
      cacheLookup (setQueryData c pathAndArgs output)
        (getCacheKey pathAndArgs none ++ [JsVal.str CACHE_KEY_INFINITE_QUERY]) =
          some output ∧
      getCacheKey pathAndArgs none ++ [JsVal.str CACHE_KEY_INFINITE_QUERY] =
        useInfiniteQueryKey pathAndArgs ∧
      (∀ k : List JsVal,
        k ≠ getCacheKey pathAndArgs none ++ [JsVal.str CACHE_KEY_QUERY] →
        k ≠ getCacheKey pathAndArgs none ++ [JsVal.str CACHE_KEY_INFINITE_QUERY] →
        cacheLookup (setQueryData c pathAndArgs output) k = cacheLookup c k) ∧
      cacheLookup (setQueryData c pathAndArgs output)
          (getCacheKey pathAndArgs (some CACHE_KEY_LIVE_QUERY)) =
        cacheLookup c (getCacheKey pathAndArgs (some CACHE_KEY_LIVE_QUERY)) := by
  have hq : getCacheKey pathAndArgs none ++ [JsVal.str CACHE_KEY_QUERY] =
      useQueryKey pathAndArgs := by
    rw [useQueryKey, getCacheKey_some_ne_empty _ _ (by decide : CACHE_KEY_QUERY ≠ "")]
    rfl
  have hi : getCacheKey pathAndArgs none ++ [JsVal.str CACHE_KEY_INFINITE_QUERY] =
      useInfiniteQueryKey pathAndArgs := by
    rw [useInfiniteQueryKey,
      getCacheKey_some_ne_empty _ _ (by decide : CACHE_KEY_INFINITE_QUERY ≠ "")]
    rfl
  have hqi : getCacheKey pathAndArgs none ++ [JsVal.str CACHE_KEY_QUERY] ≠
      getCacheKey pathAndArgs none ++ [JsVal.str CACHE_KEY_INFINITE_QUERY] := by
    simp [CACHE_KEY_QUERY, CACHE_KEY_INFINITE_QUERY]
  have frame : ∀ k : List JsVal,
      k ≠ getCacheKey pathAndArgs none ++ [JsVal.str CACHE_KEY_QUERY] →
      k ≠ getCacheKey pathAndArgs none ++ [JsVal.str CACHE_KEY_INFINITE_QUERY] →
      cacheLookup (setQueryData c pathAndArgs output) k = cacheLookup c k := by
    intro k hk1 hk2
    rw [setQueryData, cacheLookup_cacheSet_ne _ _ _ _ hk2,
      cacheLookup_cacheSet_ne _ _ _ _ hk1]
  refine ⟨?_, hq, ?_, hi, frame, ?_⟩
  · rw [setQueryData, cacheLookup_cacheSet_ne _ _ _ _ hqi, cacheLookup_cacheSet_self]
  · rw [setQueryData, cacheLookup_cacheSet_self]
  · refine frame _ ?_ ?_ <;>
      rw [getCacheKey_some_ne_empty _ _ (by decide : CACHE_KEY_LIVE_QUERY ≠ "")] <;>
      simp [getCacheKey, CACHE_KEY_LIVE_QUERY, CACHE_KEY_QUERY, CACHE_KEY_INFINITE_QUERY]

/-- Witness for C10's frame condition at a concrete unrelated key. -/
theorem C10_setQueryData_writes_two_keys_only_witness :
    cacheLookup (setQueryData [] [JsVal.str "user.get", JsVal.num 7] (JsVal.str "alice"))
        [JsVal.str "other.path", JsVal.null, JsVal.str "TRPC_QUERY"] =
      cacheLookup [] [JsVal.str "other.path", JsVal.null, JsVal.str "TRPC_QUERY"] :=
  (C10_setQueryData_writes_two_keys_only [] [JsVal.str "user.get", JsVal.num 7]
      (JsVal.str "alice")).2.2.2.2.1
    [JsVal.str "other.path", JsVal.null, JsVal.str "TRPC_QUERY"] (by decide) (by decide)

/-- Modelled from the spec: `queryClient.prefetchQuery(key, fetchFn)` of the
external cache store — run the supplied fetch function, store a successful
result under the key, and propagate the outcome to the returned future. -/
def qcPrefetchQuery (c : Cache) (key : List JsVal) (fetchResult : Except JsVal JsVal) :
    Except JsVal Cache :=
  match fetchResult with
  | Except.ok v => Except.ok (cacheSet c key v)
  | Except.error e => Except.error e

/-- `ssr`'s `prefetchQuery` (source lines 214-228): execute the direct
in-process caller — the fetch function awaits it without catching — and store
the result under the inline `[path, input ?? null, CACHE_KEY_QUERY]` key. -/
def ssrPrefetchQuery (caller : List JsVal → Except JsVal JsVal) (c : Cache)
    (pathAndArgs : List JsVal) : Except JsVal Cache :=
  qcPrefetchQuery c (ssrPrefetchQueryKey pathAndArgs) (caller pathAndArgs)

/-- `ssr`'s `prefetchInfiniteQuery` (source lines 230-243). -/
def ssrPrefetchInfiniteQuery (caller : List JsVal → Except JsVal JsVal) (c : Cache)
    (pathAndArgs : List JsVal) : Except JsVal Cache :=
  qcPrefetchQuery c (ssrPrefetchInfiniteQueryKey pathAndArgs) (caller pathAndArgs)

/-- Claim C9: when the direct in-process call fails, the future returned by
`ssr.prefetchQuery` (and by `ssr.prefetchInfiniteQuery`) rejects with that
same failure — the error is caller-visible, not swallowed. -/
theorem C9_prefetch_propagates_failure
    (caller : List JsVal → Except JsVal JsVal) (c : Cache)
    (pathAndArgs : List JsVal) (e : JsVal)
    (hfail : caller pathAndArgs = Except.error e) :
    ssrPrefetchQuery caller c pathAndArgs = Except.error e ∧
      ssrPrefetchInfiniteQuery caller c pathAndArgs = Except.error e := by
  constructor <;> simp [ssrPrefetchQuery, ssrPrefetchInfiniteQuery, qcPrefetchQuery, hfail]

/-- Witness for C9 with a concretely failing direct caller. -/
theorem C9_prefetch_propagates_failure_witness :
    ssrPrefetchQuery (fun _ => Except.error (JsVal.str "boom")) []
        [JsVal.str "user.get", JsVal.num 7] = Except.error (JsVal.str "boom") ∧
      ssrPrefetchInfiniteQuery (fun _ => Except.error (JsVal.str "boom")) []
        [JsVal.str "user.get", JsVal.num 7] = Except.error (JsVal.str "boom") :=
  C9_prefetch_propagates_failure (fun _ => Except.error (JsVal.str "boom")) []
    [JsVal.str "user.get", JsVal.num 7] (JsVal.str "boom") rfl

/-- Modelled from the spec: `dehydrate(queryClient, opts)` extracts the
external cache's serializable snapshot; modelled as the cache state itself. -/
def qcDehydrate (c : Cache) : Cache := c

/-- `ssr`'s `dehydrate` (source lines 244-246):
`client.transformer.serialize(dehydrate(queryClient, opts))`. -/
def ssrDehydrate (serialize : Cache → α) (c : Cache) : α :=
  serialize (qcDehydrate c)

/-- `useDehydratedState` (source lines 256-265): a falsy snapshot is passed
through; otherwise the transformer's `deserialize` is applied. -/
def useDehydratedState (deserialize : α → Cache) : Option α → Option Cache
  | none => none
  | some st => some (deserialize st)

/-- Modelled from the spec: the external cache's query primitive — when data
exists under the key it resolves immediately from the cache, else it invokes
the fetch function. The second component counts RPC round trips issued. -/
def qcQuery (c : Cache) (key : List JsVal) (fetchFn : Unit → Except JsVal JsVal) :
    Except JsVal JsVal × Nat :=
  match cacheLookup c key with
  | some v => (Except.ok v, 0)
  | none => (fetchFn (), 1)

/-- The client-side `_useQuery` (source lines 72-87): derive the key with
category `TRPC_QUERY` and hand the RPC fetch function to the external cache. -/
def clientUseQuery (rpc : List JsVal → Except JsVal JsVal) (c : Cache)
    (pathAndArgs : List JsVal) : Except JsVal JsVal × Nat :=
  qcQuery c (useQueryKey pathAndArgs) (fun _ => rpc pathAndArgs)

/-- Claim C8: assuming the caller-supplied transformer satisfies
`deserialize (serialize x) = x`, composing `useDehydratedState` with
`ssr.dehydrate` yields the untransformed dehydrated cache state, so after a
successful `prefetchQuery(path, input)` and this round trip a client-side
query for the same path and input resolves immediately with the prefetched
value and issues no RPC call. -/
theorem C8_dehydrate_roundtrip_and_cache_hit {α : Type}
    (serialize : Cache → α) (deserialize : α → Cache)
    (hinv : ∀ x, deserialize (serialize x) = x)
    (caller rpc : List JsVal → Except JsVal JsVal) (c0 c1 : Cache)
    (pathAndArgs : List JsVal) (v : JsVal)
    (hok : caller pathAndArgs = Except.ok v)
    (hc1 : ssrPrefetchQuery caller c0 pathAndArgs = Except.ok c1) :
    useDehydratedState deserialize (some (ssrDehydrate serialize c1)) =
        some (qcDehydrate c1) ∧
      clientUseQuery rpc c1 pathAndArgs = (Except.ok v, 0) := by
  have hc1eq : c1 = cacheSet c0 (ssrPrefetchQueryKey pathAndArgs) v := by
    simp [ssrPrefetchQuery, qcPrefetchQuery, hok] at hc1
    exact hc1.symm
  have hkey : ssrPrefetchQueryKey pathAndArgs = useQueryKey pathAndArgs := by
    rw [useQueryKey, getCacheKey_some_ne_empty _ _ (by decide : CACHE_KEY_QUERY ≠ "")]
    rfl
  constructor
  · rw [ssrDehydrate, useDehydratedState, hinv, qcDehydrate]
  · rw [clientUseQuery, qcQuery, hc1eq, hkey, cacheLookup_cacheSet_self]

/-- Witness for C8 with the identity transformer and a concrete prefetched
user record; the client-side RPC function fails if ever called, showing no
RPC is issued. -/
theorem C8_dehydrate_roundtrip_and_cache_hit_witness :
    useDehydratedState (fun c => c)
        (some (ssrDehydrate (fun c => c)
          (cacheSet []
            (ssrPrefetchQueryKey
              [JsVal.str "user.get", JsVal.objCons "id" (JsVal.num 7) JsVal.objNil])
            (JsVal.str "alice")))) =
      some (qcDehydrate
        (cacheSet []
          (ssrPrefetchQueryKey
            [JsVal.str "user.get", JsVal.objCons "id" (JsVal.num 7) JsVal.objNil])
          (JsVal.str "alice"))) ∧
      clientUseQuery (fun _ => Except.error (JsVal.str "should-not-be-called"))
        (cacheSet []
          (ssrPrefetchQueryKey
            [JsVal.str "user.get", JsVal.objCons "id" (JsVal.num 7) JsVal.objNil])
          (JsVal.str "alice"))
        [JsVal.str "user.get", JsVal.objCons "id" (JsVal.num 7) JsVal.objNil] =
      (Except.ok (JsVal.str "alice"), 0) :=
  C8_dehydrate_roundtrip_and_cache_hit (fun c => c) (fun c => c) (fun _ => rfl)
    (fun _ => Except.ok (JsVal.str "alice"))
    (fun _ => Except.error (JsVal.str "should-not-be-called")) []
    (cacheSet []
      (ssrPrefetchQueryKey
        [JsVal.str "user.get", JsVal.objCons "id" (JsVal.num 7) JsVal.objNil])
      (JsVal.str "alice"))
    [JsVal.str "user.get", JsVal.objCons "id" (JsVal.num 7) JsVal.objNil]
    (JsVal.str "alice") rfl rfl
